import Mathlib

/-!
Verification of the Indicator & Alert Engine of the trading-monitor
repository.

The TypeScript source is shallow-embedded: numbers are modelled by `ℚ`
(the code performs only field arithmetic, comparisons and a final
round-to-two-decimals step, all of which are exact on the inputs of
interest), timestamps by `ℤ`, nullable values by `Option`, and the
React state updaters by pure functions on the state they transform.
-/

namespace TradingMonitor

/-- One OHLCV candle (`CandleData` in `types.ts`).  The source field
`open` is a Lean keyword, so it is called `openPrice` here. -/
structure CandleData where
  timestamp : ℤ
  openPrice : ℚ
  high : ℚ
  low : ℚ
  close : ℚ
  volume : ℚ
  deriving DecidableEq, Repr

/-- `IndicatorData` in `types.ts`: one EMA snapshot per candle index. -/
structure IndicatorData where
  ema10 : Option ℚ
  ema20 : Option ℚ
  ema50 : Option ℚ
  deriving DecidableEq, Repr

/-- `SupportResistance` in `types.ts`. -/
structure SupportResistance where
  support : Option ℚ
  resistance : Option ℚ
  deriving DecidableEq, Repr

/-- `AlertType` in `types.ts` (the variant used by the alert checkers). -/
inductive AlertType where
  | BUY_CALL
  | SELL_PUT
  | EARLY_PULLBACK_EMA20
  deriving DecidableEq, Repr

/-- `Alert` in `types.ts`. -/
structure Alert where
  id : String
  type : AlertType
  message : String
  timestamp : ℤ
  asset : String
  deriving DecidableEq, Repr

/- Constants from `constants.ts`. -/

def PULLBACK_CANDLE_LOOKBACK : ℕ := 2
def STRONG_CANDLE_BODY_LOOKBACK : ℕ := 3
def VOLUME_AVERAGE_PERIOD : ℕ := 10
def SR_LOOKBACK_PERIOD : ℕ := 20
def CHART_DATA_LIMIT : ℕ := 100

/-- `parseFloat(x.toFixed(2))`: round to two decimal places, ties away
from zero resolved upward (ECMAScript `toFixed` picks the larger
candidate on a tie). -/
def round2 (q : ℚ) : ℚ := (⌊q * 100 + 1 / 2⌋ : ℚ) / 100

/-- JavaScript `arr.slice(-n)`.  For `n > 0` this is the trailing `n`
elements (or the whole array when it is shorter); `slice(-0)` is
`slice(0)`, the whole array. -/
def sliceNeg (n : ℕ) (l : List α) : List α :=
  if n = 0 then l else l.drop (l.length - n)

/-- `arr[arr.length - 1]` on a list known to be non-empty at the call
sites; an arbitrary default candle stands in for the unreachable
empty case. -/
def lastD (l : List CandleData) : CandleData :=
  l.getLastD ⟨0, 0, 0, 0, 0, 0⟩

/-!  `utils/calculations.ts`  -/

/-- The EMA recurrence loop of `calculateEMA`: starting from the value
`prev` already stored at the previous index, produce the value
`(close - prev) * multiplier + prev` for each remaining close (the
`previousEMA !== null` test in the loop is always true there, since
every previous slot from index `period - 1` on has been filled). -/
def emaScan (multiplier : ℚ) : ℚ → List ℚ → List ℚ
  | _, [] => []
  | prev, c :: cs =>
    ((c - prev) * multiplier + prev) :: emaScan multiplier ((c - prev) * multiplier + prev) cs

/-- `calculateEMA` from `utils/calculations.ts`, for `period ≥ 1` (the
source is only called with periods 10, 20 and 50; `period = 0` makes
the JavaScript produce a NaN series, which has no `ℚ` counterpart):
if there are fewer candles than the period the whole series is null;
otherwise index `period - 1` holds the simple average of the first
`period` closes, each later index is obtained by the recurrence, and
only the finished series is rounded to two decimals. -/
def calculateEMA (data : List CandleData) (period : ℕ) : List (Option ℚ) :=
  if data.length < period then data.map (fun _ => none)
  else
    let closes := data.map CandleData.close
    let multiplier : ℚ := 2 / ((period : ℚ) + 1)
    let seed : ℚ := (closes.take period).sum / (period : ℚ)
    let raw : List ℚ := seed :: emaScan multiplier seed (closes.drop period)
    List.replicate (period - 1) (none : Option ℚ) ++ raw.map (fun v => some (round2 v))

/-- The unrounded internal EMA values: entry `j` is the value the
source computes for candle index `period - 1 + j` before the final
rounding pass. -/
def emaRawList (data : List CandleData) (period : ℕ) : List ℚ :=
  let closes := data.map CandleData.close
  let seed : ℚ := (closes.take period).sum / (period : ℚ)
  seed :: emaScan (2 / ((period : ℚ) + 1)) seed (closes.drop period)

/-- The unrounded internal EMA value at candle index `i ≥ period - 1`. -/
def emaRawAt (data : List CandleData) (period : ℕ) (i : ℕ) : ℚ :=
  (emaRawList data period).getD (i - (period - 1)) 0

/-- `calculateSupportResistance` from `utils/calculations.ts`. -/
def calculateSupportResistance (data : List CandleData) (lookback : ℕ) :
    SupportResistance :=
  if data.length = 0 then ⟨none, none⟩
  else
    let relevantData := sliceNeg lookback data
    match (relevantData.map CandleData.low).min?,
          (relevantData.map CandleData.high).max? with
    | some mn, some mx => ⟨some (round2 mn), some (round2 mx)⟩
    | _, _ => ⟨none, none⟩

/-- `getCandleBodySize`. -/
def getCandleBodySize (candle : CandleData) : ℚ :=
  |candle.close - candle.openPrice|

/-- `getAverageBodySize`. -/
def getAverageBodySize (candles : List CandleData) (lookback : ℕ) : ℚ :=
  if candles.length < lookback then 0
  else
    let relevantCandles := sliceNeg lookback candles
    (relevantCandles.map getCandleBodySize).sum / (relevantCandles.length : ℚ)

/-- `getAverageVolume`. -/
def getAverageVolume (candles : List CandleData) (lookback : ℕ) : ℚ :=
  if candles.length < lookback then 0
  else
    let relevantCandles := sliceNeg lookback candles
    (relevantCandles.map CandleData.volume).sum / (relevantCandles.length : ℚ)

/-- `isStrongGreenCandle`. -/
def isStrongGreenCandle (currentCandle : CandleData) (previousCandles : List CandleData)
    (lookback : ℕ) : Bool :=
  if previousCandles.length < lookback then false
  else if currentCandle.close ≤ currentCandle.openPrice then false
  else decide
    (getCandleBodySize currentCandle > getAverageBodySize previousCandles lookback * 1.5)

/-- `isStrongRedCandle`. -/
def isStrongRedCandle (currentCandle : CandleData) (previousCandles : List CandleData)
    (lookback : ℕ) : Bool :=
  if previousCandles.length < lookback then false
  else if currentCandle.close ≥ currentCandle.openPrice then false
  else decide
    (getCandleBodySize currentCandle > getAverageBodySize previousCandles lookback * 1.5)

/-- `hasBullishPullback`.  The source reads the immediately previous
candle and the four EMA values, returning false when any EMA is null;
the `getLast?` match's `none` branch is unreachable under the length
guard. -/
def hasBullishPullback (currentCandle : CandleData) (previousCandles : List CandleData)
    (currentIndicators prevIndicators : IndicatorData) : Bool :=
  if previousCandles.length < PULLBACK_CANDLE_LOOKBACK then false
  else
    match previousCandles.getLast?, currentIndicators.ema10, currentIndicators.ema20,
          prevIndicators.ema10, prevIndicators.ema20 with
    | some prevCandle, some ema10, some ema20, some prevEma10, some prevEma20 =>
      let didTouchEma10 := (prevCandle.low ≤ ema10 ∧ prevCandle.high ≥ ema10)
        ∨ (prevCandle.low ≤ prevEma10 ∧ prevCandle.high ≥ prevEma10)
      let didTouchEma20 := (prevCandle.low ≤ ema20 ∧ prevCandle.high ≥ ema20)
        ∨ (prevCandle.low ≤ prevEma20 ∧ prevCandle.high ≥ prevEma20)
      decide ((didTouchEma10 ∨ didTouchEma20) ∧ currentCandle.close > prevCandle.close)
    | _, _, _, _, _ => false

/-- `hasBearishPullback`. -/
def hasBearishPullback (currentCandle : CandleData) (previousCandles : List CandleData)
    (currentIndicators prevIndicators : IndicatorData) : Bool :=
  if previousCandles.length < PULLBACK_CANDLE_LOOKBACK then false
  else
    match previousCandles.getLast?, currentIndicators.ema10, currentIndicators.ema20,
          prevIndicators.ema10, prevIndicators.ema20 with
    | some prevCandle, some ema10, some ema20, some prevEma10, some prevEma20 =>
      let didTouchEma10 := (prevCandle.high ≥ ema10 ∧ prevCandle.low ≤ ema10)
        ∨ (prevCandle.high ≥ prevEma10 ∧ prevCandle.low ≤ prevEma10)
      let didTouchEma20 := (prevCandle.high ≥ ema20 ∧ prevCandle.low ≤ ema20)
        ∨ (prevCandle.high ≥ prevEma20 ∧ prevCandle.low ≤ prevEma20)
      decide ((didTouchEma10 ∨ didTouchEma20) ∧ currentCandle.close < prevCandle.close)
    | _, _, _, _, _ => false

/-- `checkForBuyCallAlert`.  The JavaScript guard
`!ema10 || !ema20 || !ema50 || length < 3+2+10 || !prevIndicators`
treats a null EMA and an EMA equal to zero alike (both falsy). -/
def checkForBuyCallAlert (asset : String) (currentCandle : CandleData)
    (previousCandles : List CandleData) (currentIndicators : IndicatorData)
    (prevIndicators : Option IndicatorData) : Option Alert :=
  match currentIndicators.ema10, currentIndicators.ema20, currentIndicators.ema50,
        prevIndicators with
  | some ema10, some ema20, some ema50, some prevInd =>
    if ema10 = 0 ∨ ema20 = 0 ∨ ema50 = 0 ∨ previousCandles.length <
        STRONG_CANDLE_BODY_LOOKBACK + PULLBACK_CANDLE_LOOKBACK + VOLUME_AVERAGE_PERIOD then
      none
    else
      let prevCandle := lastD previousCandles
      if ema10 > ema20 ∧ ema20 > ema50 ∧ currentCandle.close > ema50
          ∧ hasBullishPullback currentCandle previousCandles currentIndicators prevInd = true
          ∧ isStrongGreenCandle currentCandle previousCandles STRONG_CANDLE_BODY_LOOKBACK = true
          ∧ currentCandle.close > prevCandle.high
          ∧ currentCandle.volume > getAverageVolume previousCandles VOLUME_AVERAGE_PERIOD * 1.2 then
        some
          { id := "buy-call-" ++ asset ++ "-" ++ toString currentCandle.timestamp
            type := AlertType.BUY_CALL
            message := "📈 Entrada CALL detectada – tendência confirmada"
            timestamp := currentCandle.timestamp
            asset := asset }
      else none
  | _, _, _, _ => none

/-- `checkForSellPutAlert`. -/
def checkForSellPutAlert (asset : String) (currentCandle : CandleData)
    (previousCandles : List CandleData) (currentIndicators : IndicatorData)
    (prevIndicators : Option IndicatorData) : Option Alert :=
  match currentIndicators.ema10, currentIndicators.ema20, currentIndicators.ema50,
        prevIndicators with
  | some ema10, some ema20, some ema50, some prevInd =>
    if ema10 = 0 ∨ ema20 = 0 ∨ ema50 = 0 ∨ previousCandles.length <
        STRONG_CANDLE_BODY_LOOKBACK + PULLBACK_CANDLE_LOOKBACK + VOLUME_AVERAGE_PERIOD then
      none
    else
      let prevCandle := lastD previousCandles
      if ema10 < ema20 ∧ ema20 < ema50 ∧ currentCandle.close < ema50
          ∧ hasBearishPullback currentCandle previousCandles currentIndicators prevInd = true
          ∧ isStrongRedCandle currentCandle previousCandles STRONG_CANDLE_BODY_LOOKBACK = true
          ∧ currentCandle.close < prevCandle.low
          ∧ currentCandle.volume > getAverageVolume previousCandles VOLUME_AVERAGE_PERIOD * 1.2 then
        some
          { id := "sell-put-" ++ asset ++ "-" ++ toString currentCandle.timestamp
            type := AlertType.SELL_PUT
            message := "📉 Entrada PUT detectada – tendência confirmada"
            timestamp := currentCandle.timestamp
            asset := asset }
      else none
  | _, _, _, _ => none

/-- `checkForEarlyPullbackAlert` (the three-argument variant of
`utils/calculations.ts`, which `App.tsx` calls); `!ema20` is again a
truthiness test. -/
def checkForEarlyPullbackAlert (asset : String) (currentCandle : CandleData)
    (currentIndicators : IndicatorData) : Option Alert :=
  match currentIndicators.ema20 with
  | some ema20 =>
    if ema20 = 0 then none
    else
      let bullishTouch := currentCandle.low ≤ ema20 ∧ currentCandle.high ≥ ema20
      let bearishTouch := currentCandle.high ≥ ema20 ∧ currentCandle.low ≤ ema20
      if bullishTouch ∨ bearishTouch then
        some
          { id := "early-pullback-ema20-" ++ asset ++ "-" ++ toString currentCandle.timestamp
            type := AlertType.EARLY_PULLBACK_EMA20
            message := "⚠️ Alerta de Pullback Antecipado na EMA 20"
            timestamp := currentCandle.timestamp
            asset := asset }
      else none
  | none => none

/-- The early-pullback feature gate in `App.tsx`: the check only runs
when `enableEarlyPullbackAlerts` is on. -/
def earlyPullbackGated (enabled : Bool) (asset : String) (currentCandle : CandleData)
    (currentIndicators : IndicatorData) : Option Alert :=
  if enabled then checkForEarlyPullbackAlert asset currentCandle currentIndicators
  else none

/-!  `App.tsx` state updaters  -/

/-- Two alerts collide for deduplication purposes when they share
type, timestamp and asset (the `isDuplicate` test in `addAlert`). -/
def sameKey (a b : Alert) : Prop :=
  a.type = b.type ∧ a.timestamp = b.timestamp ∧ a.asset = b.asset

instance : DecidablePred fun p : Alert × Alert => sameKey p.1 p.2 :=
  fun _ => by unfold sameKey; infer_instance

instance (a b : Alert) : Decidable (sameKey a b) := by unfold sameKey; infer_instance

/-- `addAlert` in `App.tsx`: the updater applied to the alert log,
paired with whether `triggerAlertNotifications` fired (it is called
exactly on the non-duplicate branch). -/
def addAlert (prevAlerts : List Alert) (newAlert : Alert) : List Alert × Bool :=
  if prevAlerts.any fun alert => decide (sameKey alert newAlert) then
    (prevAlerts, false)
  else (prevAlerts ++ [newAlert], true)

/-- The alert logs reachable from the initial empty log by repeated
`addAlert` submissions. -/
inductive ReachableLog : List Alert → Prop
  | nil : ReachableLog []
  | step {l : List Alert} (a : Alert) : ReachableLog l → ReachableLog (addAlert l a).1

/-- The candle-history update in `handleNewCandle`
(`[...prev, newCandle].slice(-CHART_DATA_LIMIT)`), identical in
`App.tsx` and in the multi-asset variant. -/
def updatedCandleData (prevData : List CandleData) (newCandle : CandleData) :
    List CandleData :=
  sliceNeg CHART_DATA_LIMIT (prevData ++ [newCandle])

/-- The per-asset pivot computed by the target-line interval effect:
`(high + low + close) / 3` of the most recent candle, rounded to two
decimals, or null when the asset's history is empty. -/
def pivotTargetForHistory (assetCandleData : List CandleData) : Option ℚ :=
  match assetCandleData.getLast? with
  | some latestCandle =>
    some (round2 ((latestCandle.high + latestCandle.low + latestCandle.close) / 3))
  | none => none

/-- One tick of the target-line interval: every monitored asset's
target is recomputed from its current history. -/
def tickTargets (assets : List String) (histories : String → List CandleData) :
    List (String × Option ℚ) :=
  assets.map fun a => (a, pivotTargetForHistory (histories a))

/-!  Specification-side definition (for comparison with the source)  -/

/-- Support/resistance as the specification words it: undefined exactly
when the history is empty, and otherwise the minimum low / maximum
high over the trailing `lookback` candles ("or all candles when the
history is shorter than the lookback"), rounded to two decimals.  The
trailing window is `data.drop (data.length - lookback)`, which for
`lookback = 0` is empty — unlike the source's `slice(-0)`. -/
def supportResistanceSpec (data : List CandleData) (lookback : ℕ) :
    SupportResistance :=
  if data = [] then ⟨none, none⟩
  else
    let window := data.drop (data.length - lookback)
    ⟨((window.map CandleData.low).min?).map round2,
     ((window.map CandleData.high).max?).map round2⟩

/-!  Concrete fixtures used by witnesses and counterexamples  -/

/-- The support/resistance fixture of the specification:
`[{low:10,high:20},{low:5,high:25},{low:8,high:18}]`. -/
def srFixture : List CandleData :=
  [⟨0, 0, 20, 10, 0, 0⟩, ⟨1, 0, 25, 5, 0, 0⟩, ⟨2, 0, 18, 8, 0, 0⟩]

/-- A quiet doji-like candle: open 9, high 10, low 9, close 9, volume 1. -/
def quietCandle : CandleData := ⟨0, 9, 10, 9, 9, 1⟩

/-- Fifteen identical quiet candles preceding the buy-call fixture. -/
def buyPrevFixture : List CandleData := List.replicate 15 quietCandle

/-- A strong green breakout candle for the buy-call fixture. -/
def buyCurFixture : CandleData := ⟨100, 9, 11, 9, 11, 2⟩

/-- Current indicators for the buy-call fixture: EMA10 > EMA20 > EMA50,
all below the close. -/
def buyIndFixture : IndicatorData := ⟨some 10, some 9, some 8⟩

/-- Previous indicators for the buy-call fixture, with `ema50` null. -/
def buyPrevIndFixture : IndicatorData := ⟨some 10, some 9, none⟩

/-- A candle whose `[low, high]` range straddles zero. -/
def zeroTouchCandle : CandleData := ⟨5, 1, 1, 0, 1, 1⟩

/-- One hundred and one candles with distinct timestamps. -/
def candleSeq101 : List CandleData :=
  (List.range 101).map fun i => ⟨(i : ℤ), 1, 2, 0, 1, 1⟩

/-- Three candles with closes 1, 3 and 5 for the EMA witness. -/
def emaFixture : List CandleData :=
  [⟨0, 0, 0, 0, 1, 0⟩, ⟨1, 0, 0, 0, 3, 0⟩, ⟨2, 0, 0, 0, 5, 0⟩]

/-!  Helper lemmas  -/

theorem sliceNeg_length {α : Type} (n : ℕ) (hn : n ≠ 0) (l : List α) :
    (sliceNeg n l).length = min l.length n := by
  simp only [sliceNeg, if_neg hn, List.length_drop]
  omega

theorem sliceNeg_concat_getLast? {α : Type} (n : ℕ) (hn : n ≠ 0) (l : List α) (c : α) :
    (sliceNeg n (l ++ [c])).getLast? = some c := by
  unfold sliceNeg
  rw [if_neg hn, List.getLast?_eq_getElem?, List.getElem?_drop]
  simp only [List.length_drop, List.length_append, List.length_cons, List.length_nil]
  have h : l.length + 1 - n + (l.length + 1 - (l.length + 1 - n) - 1) = l.length := by omega
  rw [h, List.getElem?_concat_length]

theorem sliceNeg_append_sliceNeg {α : Type} (n : ℕ) (hn : n ≠ 0) (l r : List α) :
    sliceNeg n (sliceNeg n l ++ r) = sliceNeg n (l ++ r) := by
  unfold sliceNeg
  rw [if_neg hn, if_neg hn, if_neg hn]
  by_cases h : l.length ≤ n
  · have h0 : l.length - n = 0 := by omega
    rw [h0, List.drop_zero]
  · rw [List.drop_append_eq_append_drop, List.drop_append_eq_append_drop, List.drop_drop]
    congr 1
    · congr 1
      simp only [List.length_append, List.length_drop]
      omega
    · congr 1
      simp only [List.length_append, List.length_drop]
      omega

theorem updatedCandleData_length_le (prev : List CandleData) (c : CandleData) :
    (updatedCandleData prev c).length ≤ CHART_DATA_LIMIT := by
  unfold updatedCandleData
  rw [sliceNeg_length CHART_DATA_LIMIT (by decide)]
  omega

theorem foldl_updatedCandleData (cs : List CandleData) :
    ∀ init : List CandleData, init.length ≤ CHART_DATA_LIMIT →
      List.foldl updatedCandleData init cs = sliceNeg CHART_DATA_LIMIT (init ++ cs) := by
  induction cs with
  | nil =>
    intro init h
    have h0 : init.length - CHART_DATA_LIMIT = 0 := by omega
    rw [List.foldl_nil, List.append_nil]
    unfold sliceNeg
    rw [if_neg (by decide : CHART_DATA_LIMIT ≠ 0), h0, List.drop_zero]
  | cons c cs ih =>
    intro init h
    rw [List.foldl_cons, ih (updatedCandleData init c) (updatedCandleData_length_le init c)]
    show sliceNeg CHART_DATA_LIMIT (sliceNeg CHART_DATA_LIMIT (init ++ [c]) ++ cs) = _
    rw [sliceNeg_append_sliceNeg CHART_DATA_LIMIT (by decide)]
    congr 1
    simp

/-!  Claim theorems  -/

/-- C4 counterexample: a candle whose timestamp (1) is not greater
than the last stored timestamp (2) is appended all the same — the
history changes and no error is raised, so the claimed OrderingError
rejection does not exist in the code. -/
theorem outOfOrder_accepted_counterexample :
    (CandleData.timestamp ⟨1, 0, 0, 0, 0, 0⟩ ≤ CandleData.timestamp ⟨2, 0, 0, 0, 0, 0⟩)
    ∧ updatedCandleData [⟨2, 0, 0, 0, 0, 0⟩] ⟨1, 0, 0, 0, 0, 0⟩ ≠ [⟨2, 0, 0, 0, 0, 0⟩]
    ∧ updatedCandleData [⟨2, 0, 0, 0, 0, 0⟩] ⟨1, 0, 0, 0, 0, 0⟩ =
        [⟨2, 0, 0, 0, 0, 0⟩, ⟨1, 0, 0, 0, 0, 0⟩] := by
  refine ⟨by decide, ?_, by decide⟩
  decide

/-- C4 (amended): the new-candle append performs no timestamp-ordering
check — a candle whose timestamp is ≤ the last stored candle's
timestamp is silently accepted, becoming the last entry of the
(trimmed) history, exactly as an in-order candle would. -/
theorem updatedCandleData_no_ordering_check (prev : List CandleData) (c last : CandleData)
    (_hlast : prev.getLast? = some last) (_hts : c.timestamp ≤ last.timestamp) :
    (updatedCandleData prev c).getLast? = some c
    ∧ (updatedCandleData prev c).length = min (prev.length + 1) CHART_DATA_LIMIT := by
  constructor
  · exact sliceNeg_concat_getLast? CHART_DATA_LIMIT (by decide) prev c
  · unfold updatedCandleData
    rw [sliceNeg_length CHART_DATA_LIMIT (by decide)]
    simp

/-- C4 witness: the amended theorem applied to the concrete
out-of-order candle of the counterexample. -/
theorem updatedCandleData_no_ordering_check_witness :
    (updatedCandleData [⟨2, 0, 0, 0, 0, 0⟩] ⟨1, 0, 0, 0, 0, 0⟩).getLast? =
      some ⟨1, 0, 0, 0, 0, 0⟩ :=
  (updatedCandleData_no_ordering_check [⟨2, 0, 0, 0, 0, 0⟩] ⟨1, 0, 0, 0, 0, 0⟩
    ⟨2, 0, 0, 0, 0, 0⟩ rfl (by decide)).1

/-- C5: appending to a history yields `min (length + 1) 100` candles
ending in the appended candle; at the bound the oldest entry is
dropped; appending 101 candles to the empty history leaves the 100
candles after the first; and no reachable history exceeds 100. -/
theorem updatedCandleData_bounded_append (prev : List CandleData) (c : CandleData)
    (cs : List CandleData) :
    (updatedCandleData prev c).length = min (prev.length + 1) CHART_DATA_LIMIT
    ∧ (updatedCandleData prev c).getLast? = some c
    ∧ (prev.length = CHART_DATA_LIMIT → updatedCandleData prev c = prev.tail ++ [c])
    ∧ (cs.length = CHART_DATA_LIMIT + 1 → List.foldl updatedCandleData [] cs = cs.tail)
    ∧ (updatedCandleData prev c).length ≤ CHART_DATA_LIMIT := by
  refine ⟨?_, sliceNeg_concat_getLast? _ (by decide) prev c, ?_, ?_,
    updatedCandleData_length_le prev c⟩
  · unfold updatedCandleData
    rw [sliceNeg_length CHART_DATA_LIMIT (by decide)]
    simp
  · intro h
    have h' : prev.length = 100 := by rw [h]; decide
    unfold updatedCandleData sliceNeg
    rw [if_neg (by decide : CHART_DATA_LIMIT ≠ 0)]
    have h1 : (prev ++ [c]).length - CHART_DATA_LIMIT = 1 := by
      simp [h', CHART_DATA_LIMIT]
    rw [h1, List.drop_append_of_le_length (by omega : 1 ≤ prev.length), List.drop_one]
  · intro h
    rw [foldl_updatedCandleData cs [] (by simp), List.nil_append]
    unfold sliceNeg
    rw [if_neg (by decide : CHART_DATA_LIMIT ≠ 0), h]
    simp [List.drop_one]

/-- C5 witness: the theorem instantiated at a full 100-candle history
and at the concrete 101-candle sequence. -/
theorem updatedCandleData_bounded_append_witness :
    updatedCandleData (List.replicate 100 ⟨0, 0, 0, 0, 0, 0⟩) ⟨1, 0, 0, 0, 0, 0⟩ =
      (List.replicate 100 (⟨0, 0, 0, 0, 0, 0⟩ : CandleData)).tail ++ [⟨1, 0, 0, 0, 0, 0⟩]
    ∧ List.foldl updatedCandleData [] candleSeq101 = candleSeq101.tail :=
  ⟨(updatedCandleData_bounded_append (List.replicate 100 ⟨0, 0, 0, 0, 0, 0⟩)
      ⟨1, 0, 0, 0, 0, 0⟩ []).2.2.1 (by decide),
   (updatedCandleData_bounded_append [] ⟨0, 0, 0, 0, 0, 0⟩ candleSeq101).2.2.2.1
      (by decide)⟩

/-- C3: submitting an alert whose (type, asset, timestamp) triple is
already in the log leaves the log unchanged with no notification;
a new triple appends exactly that entry (with a notification);
submitting the same alert twice leaves exactly one matching entry;
and every log reachable from the empty log has pairwise-distinct
triples. -/
theorem addAlert_dedup (log : List Alert) (a : Alert) :
    ((∃ b ∈ log, sameKey b a) → addAlert log a = (log, false))
    ∧ (¬ (∃ b ∈ log, sameKey b a) → addAlert log a = (log ++ [a], true))
    ∧ (addAlert (addAlert log a).1 a).1 = (addAlert log a).1
    ∧ (¬ (∃ b ∈ log, sameKey b a) →
        ((addAlert (addAlert log a).1 a).1.countP fun b => decide (sameKey b a)) = 1)
    ∧ (∀ l, ReachableLog l → l.Pairwise fun x y => ¬ sameKey x y) := by
  have hany0 : ∀ (l : List Alert) (z : Alert),
      (l.any fun alert => decide (sameKey alert z)) = true ↔ ∃ b ∈ l, sameKey b z := by
    intro l z
    simp [List.any_eq_true]
  have hany : ∀ l : List Alert,
      (l.any fun alert => decide (sameKey alert a)) = true ↔ ∃ b ∈ l, sameKey b a :=
    fun l => hany0 l a
  have hrefl : sameKey a a := ⟨rfl, rfl, rfl⟩
  have h1 : (∃ b ∈ log, sameKey b a) → addAlert log a = (log, false) := by
    intro h
    unfold addAlert
    rw [if_pos ((hany log).mpr h)]
  have h2 : ¬ (∃ b ∈ log, sameKey b a) → addAlert log a = (log ++ [a], true) := by
    intro h
    unfold addAlert
    rw [if_neg fun hc => h ((hany log).mp hc)]
  have h3 : (addAlert (addAlert log a).1 a).1 = (addAlert log a).1 := by
    by_cases h : ∃ b ∈ log, sameKey b a
    · rw [h1 h, h1 h]
    · rw [h2 h]
      have : addAlert (log ++ [a]) a = (log ++ [a], false) := by
        unfold addAlert
        rw [if_pos ((hany (log ++ [a])).mpr ⟨a, by simp, hrefl⟩)]
      rw [this]
  refine ⟨h1, h2, h3, ?_, ?_⟩
  · intro h
    rw [h3, h2 h, List.countP_append]
    have hz : log.countP (fun b => decide (sameKey b a)) = 0 := by
      rw [List.countP_eq_zero]
      intro b hb
      simpa using fun hk => h ⟨b, hb, hk⟩
    rw [hz]
    simp [List.countP_cons, hrefl]
  · intro l hl
    induction hl with
    | nil => exact List.Pairwise.nil
    | @step l' a' hl' ih =>
      unfold addAlert
      by_cases h : (l'.any fun alert => decide (sameKey alert a')) = true
      · rw [if_pos h]
        exact ih
      · rw [if_neg h]
        rw [List.pairwise_append]
        refine ⟨ih, by simp, ?_⟩
        intro x hx y hy
        rw [List.mem_singleton] at hy
        exact fun hk => h ((hany0 l' a').mpr ⟨x, hx, hy ▸ hk⟩)

/-- C3 witness: the dedup theorem applied to the empty log and one
concrete alert — the first submission appends it, the second is
dropped, and the resulting log satisfies the distinct-triples
invariant. -/
theorem addAlert_dedup_witness :
    addAlert [] ⟨"x", AlertType.BUY_CALL, "m", 0, "BTCUSD"⟩ =
      ([⟨"x", AlertType.BUY_CALL, "m", 0, "BTCUSD"⟩], true)
    ∧ ((addAlert (addAlert [] ⟨"x", AlertType.BUY_CALL, "m", 0, "BTCUSD"⟩).1
          ⟨"x", AlertType.BUY_CALL, "m", 0, "BTCUSD"⟩).1.countP
        fun b => decide (sameKey b ⟨"x", AlertType.BUY_CALL, "m", 0, "BTCUSD"⟩)) = 1
    ∧ (addAlert [] ⟨"x", AlertType.BUY_CALL, "m", 0, "BTCUSD"⟩).1.Pairwise
        (fun x y => ¬ sameKey x y) :=
  ⟨(addAlert_dedup [] ⟨"x", AlertType.BUY_CALL, "m", 0, "BTCUSD"⟩).2.1 (by simp),
   (addAlert_dedup [] ⟨"x", AlertType.BUY_CALL, "m", 0, "BTCUSD"⟩).2.2.2.1 (by simp),
   (addAlert_dedup [] ⟨"x", AlertType.BUY_CALL, "m", 0, "BTCUSD"⟩).2.2.2.2 _
     (ReachableLog.step ⟨"x", AlertType.BUY_CALL, "m", 0, "BTCUSD"⟩ ReachableLog.nil)⟩

/-- C6 counterexample: with lookback 0 the claim's trailing window is
empty, yet the source (whose `slice(-0)` is the whole array) returns
the minimum low and maximum high of the entire fixture history —
the claim's window description fails at lookback 0. -/
theorem calculateSupportResistance_lookback_zero_counterexample :
    calculateSupportResistance srFixture 0 = ⟨some 5, some 25⟩
    ∧ srFixture.drop (srFixture.length - 0) = []
    ∧ supportResistanceSpec srFixture 0 = ⟨none, none⟩ := by
  refine ⟨?_, by decide, by decide⟩
  norm_num [calculateSupportResistance, srFixture, sliceNeg, round2, List.min?, List.max?,
    Int.floor_eq_iff]

/-- C6 (amended): for every lookback ≥ 1 the source agrees with the
specification wording — undefined exactly on the empty history, and
otherwise the rounded minimum low / maximum high over the trailing
`lookback` candles (all of them when the history is shorter); in
particular the fixture with lookback 3 yields support 5 and
resistance 25.  (For lookback 0, `slice(-0)` makes the source use the
whole history instead of an empty window.) -/
theorem calculateSupportResistance_spec (data : List CandleData) (lookback : ℕ)
    (hlb : 1 ≤ lookback) :
    calculateSupportResistance data lookback = supportResistanceSpec data lookback
    ∧ (calculateSupportResistance data lookback = ⟨none, none⟩ ↔ data = [])
    ∧ calculateSupportResistance srFixture 3 = ⟨some 5, some 25⟩ := by
  have hlb0 : lookback ≠ 0 := by omega
  have hfix : calculateSupportResistance srFixture 3 = ⟨some 5, some 25⟩ := by
    norm_num [calculateSupportResistance, srFixture, sliceNeg, round2, List.min?, List.max?,
      Int.floor_eq_iff]
  by_cases hd : data = []
  · subst hd
    refine ⟨by simp [calculateSupportResistance, supportResistanceSpec], by
      simp [calculateSupportResistance], hfix⟩
  · have hlen : data.length ≠ 0 := by
      simpa [List.length_eq_zero] using hd
    have hwin : data.drop (data.length - lookback) ≠ [] := by
      intro hnil
      have hl0 := congrArg List.length hnil
      rw [List.length_drop] at hl0
      simp only [List.length_nil] at hl0
      omega
    obtain ⟨mn, hmn⟩ : ∃ mn, ((data.drop (data.length - lookback)).map CandleData.low).min? = some mn := by
      rcases h : ((data.drop (data.length - lookback)).map CandleData.low).min? with _ | mn
      · rw [List.min?_eq_none_iff, List.map_eq_nil_iff] at h
        exact absurd h hwin
      · exact ⟨mn, rfl⟩
    obtain ⟨mx, hmx⟩ : ∃ mx, ((data.drop (data.length - lookback)).map CandleData.high).max? = some mx := by
      rcases h : ((data.drop (data.length - lookback)).map CandleData.high).max? with _ | mx
      · rw [List.max?_eq_none_iff, List.map_eq_nil_iff] at h
        exact absurd h hwin
      · exact ⟨mx, rfl⟩
    have hcalc : calculateSupportResistance data lookback = ⟨some (round2 mn), some (round2 mx)⟩ := by
      unfold calculateSupportResistance
      rw [if_neg hlen]
      simp only [sliceNeg, if_neg hlb0]
      rw [hmn, hmx]
    refine ⟨?_, ?_, hfix⟩
    · rw [hcalc]
      unfold supportResistanceSpec
      rw [if_neg hd]
      simp only [hmn, hmx, Option.map_some']
    · rw [hcalc]
      simp [hd]

/-- C6 witness: the amended theorem applied to the specification's
three-candle fixture with lookback 3. -/
theorem calculateSupportResistance_spec_witness :
    calculateSupportResistance srFixture 3 = supportResistanceSpec srFixture 3
    ∧ calculateSupportResistance srFixture 3 = ⟨some 5, some 25⟩ :=
  ⟨(calculateSupportResistance_spec srFixture 3 (by decide)).1,
   (calculateSupportResistance_spec srFixture 3 (by decide)).2.2⟩

/-- C7: on a pivot tick every monitored asset's target is recomputed
from its history — `(high + low + close) / 3` of the most recent
candle rounded to two decimals when the history is non-empty, and
undefined when it is empty; the candle (high 110, low 90, close 100)
yields exactly 100. -/
theorem tickTargets_pivot (assets : List String) (histories : String → List CandleData)
    (a : String) (ha : a ∈ assets) :
    (a, pivotTargetForHistory (histories a)) ∈ tickTargets assets histories
    ∧ (∀ (l : List CandleData) (last : CandleData), l.getLast? = some last →
        pivotTargetForHistory l = some (round2 ((last.high + last.low + last.close) / 3)))
    ∧ pivotTargetForHistory ([] : List CandleData) = none
    ∧ pivotTargetForHistory [⟨0, 100, 110, 90, 100, 1⟩] = some 100 := by
  refine ⟨List.mem_map_of_mem _ ha, ?_, rfl, ?_⟩
  · intro l last h
    unfold pivotTargetForHistory
    rw [h]
  · norm_num [pivotTargetForHistory, List.getLast?, List.getLast, round2, Int.floor_eq_iff]

/-- C7 witness: the pivot theorem applied to a single asset whose
history ends in the candle (high 110, low 90, close 100). -/
theorem tickTargets_pivot_witness :
    ("BTCUSD", pivotTargetForHistory [(⟨0, 100, 110, 90, 100, 1⟩ : CandleData)]) ∈
      tickTargets ["BTCUSD"] (fun _ => [⟨0, 100, 110, 90, 100, 1⟩])
    ∧ pivotTargetForHistory [(⟨0, 100, 110, 90, 100, 1⟩ : CandleData)] = some 100 :=
  ⟨(tickTargets_pivot ["BTCUSD"] (fun _ => [⟨0, 100, 110, 90, 100, 1⟩]) "BTCUSD"
      (by simp)).1,
   (tickTargets_pivot ["BTCUSD"] (fun _ => [⟨0, 100, 110, 90, 100, 1⟩]) "BTCUSD"
      (by simp)).2.2.2⟩

/-- C8 counterexample: `ema20 = 0` is a defined value and the candle's
range straddles it, yet no early-pullback alert is produced — the
JavaScript `!ema20` guard treats the defined value 0 as undefined. -/
theorem earlyPullback_zero_ema20_counterexample :
    earlyPullbackGated true "BTCUSD" zeroTouchCandle ⟨some 1, some 0, some 1⟩ = none
    ∧ zeroTouchCandle.low ≤ 0 ∧ (0 : ℚ) ≤ zeroTouchCandle.high := by
  refine ⟨?_, ?_, ?_⟩
  · simp [earlyPullbackGated, checkForEarlyPullbackAlert]
  · norm_num [zeroTouchCandle]
  · norm_num [zeroTouchCandle]

/-- Characterization of `checkForEarlyPullbackAlert`: it returns an
alert exactly when `ema20` is truthy and the candle range straddles
it, and the alert it returns is always the same generic record. -/
theorem earlyPullback_eq_some_iff (asset : String) (c : CandleData)
    (o10 o20 o50 : Option ℚ) (a : Alert) :
    checkForEarlyPullbackAlert asset c ⟨o10, o20, o50⟩ = some a ↔
      (∃ e, o20 = some e ∧ ¬ e = 0 ∧ c.low ≤ e ∧ e ≤ c.high)
      ∧ a = ⟨"early-pullback-ema20-" ++ asset ++ "-" ++ toString c.timestamp,
             AlertType.EARLY_PULLBACK_EMA20,
             "⚠️ Alerta de Pullback Antecipado na EMA 20", c.timestamp, asset⟩ := by
  cases o20 with
  | none => simp [checkForEarlyPullbackAlert]
  | some e =>
    by_cases he : e = 0
    · subst he
      simp [checkForEarlyPullbackAlert]
    · by_cases ht : c.low ≤ e ∧ e ≤ c.high
      · have hgoal : checkForEarlyPullbackAlert asset c ⟨o10, some e, o50⟩ =
            some ⟨"early-pullback-ema20-" ++ asset ++ "-" ++ toString c.timestamp,
              AlertType.EARLY_PULLBACK_EMA20,
              "⚠️ Alerta de Pullback Antecipado na EMA 20", c.timestamp, asset⟩ := by
          show (if e = 0 then none else
            if (c.low ≤ e ∧ c.high ≥ e) ∨ (c.high ≥ e ∧ c.low ≤ e) then _ else none) = _
          rw [if_neg he, if_pos (Or.inl ⟨ht.1, ht.2⟩)]
        rw [hgoal]
        simp [he, ht.1, ht.2, eq_comm]
      · have hgoal : checkForEarlyPullbackAlert asset c ⟨o10, some e, o50⟩ = none := by
          show (if e = 0 then none else
            if (c.low ≤ e ∧ c.high ≥ e) ∨ (c.high ≥ e ∧ c.low ≤ e) then _ else none) = _
          rw [if_neg he, if_neg ?hcond]
          case hcond => rintro (⟨hl, hh⟩ | ⟨hh, hl⟩) <;> exact ht ⟨hl, hh⟩
        rw [hgoal]
        constructor
        · intro h
          exact absurd h (by simp)
        · rintro ⟨⟨e2, he2, hne, hl, hh⟩, -⟩
          rw [Option.some.injEq] at he2
          exact absurd ⟨he2 ▸ hl, he2 ▸ hh⟩ ht

/-- C8 (amended): with the feature enabled, an early-pullback alert at
the current candle's timestamp is produced if and only if `ema20` is
truthy (defined and non-zero) and the candle's `[low, high]` range
straddles it; the alert is always the single generic
`EARLY_PULLBACK_EMA20` variant (the code does not distinguish bullish
from bearish touches), and with the feature disabled no alert is ever
produced. -/
theorem earlyPullback_touch_iff (asset : String) (c : CandleData) (cur : IndicatorData) :
    ((∃ a, earlyPullbackGated true asset c cur = some a
        ∧ a.type = AlertType.EARLY_PULLBACK_EMA20 ∧ a.timestamp = c.timestamp
        ∧ a.asset = asset)
      ↔ ∃ e, cur.ema20 = some e ∧ e ≠ 0 ∧ c.low ≤ e ∧ e ≤ c.high)
    ∧ (∀ a, earlyPullbackGated true asset c cur = some a →
        a.type = AlertType.EARLY_PULLBACK_EMA20)
    ∧ (earlyPullbackGated false asset c cur = none) := by
  obtain ⟨o10, o20, o50⟩ := cur
  have hgate : ∀ a, earlyPullbackGated true asset c ⟨o10, o20, o50⟩ = some a ↔
      checkForEarlyPullbackAlert asset c ⟨o10, o20, o50⟩ = some a := fun _ => Iff.rfl
  refine ⟨?_, ?_, rfl⟩
  · constructor
    · rintro ⟨a, ha, -, -, -⟩
      rw [hgate, earlyPullback_eq_some_iff] at ha
      obtain ⟨⟨e, he, hne, hl, hh⟩, -⟩ := ha
      exact ⟨e, he, hne, hl, hh⟩
    · rintro ⟨e, he, hne, hl, hh⟩
      refine ⟨_, (hgate _).mpr ((earlyPullback_eq_some_iff asset c o10 o20 o50 _).mpr
        ⟨⟨e, he, hne, hl, hh⟩, rfl⟩), rfl, rfl, rfl⟩
  · intro a ha
    rw [hgate, earlyPullback_eq_some_iff] at ha
    rw [ha.2]

/-- C9: a zero EMA is falsy to the JavaScript guards, so it suppresses
the alert exactly as a null (undefined) EMA would: a zero `ema10`,
`ema20` or `ema50` in the current snapshot makes both
`checkForBuyCallAlert` and `checkForSellPutAlert` return null, and a
zero `ema20` makes `checkForEarlyPullbackAlert` return null. -/
theorem zero_ema_suppresses_alerts (asset : String) (c : CandleData)
    (prev : List CandleData) (cur : IndicatorData) (pOpt : Option IndicatorData) :
    ((cur.ema10 = some 0 ∨ cur.ema20 = some 0 ∨ cur.ema50 = some 0) →
      checkForBuyCallAlert asset c prev cur pOpt = none
      ∧ checkForSellPutAlert asset c prev cur pOpt = none)
    ∧ (cur.ema20 = some 0 → checkForEarlyPullbackAlert asset c cur = none) := by
  obtain ⟨o10, o20, o50⟩ := cur
  constructor
  · rintro (h | h | h) <;> simp only at h <;> subst h <;>
      constructor <;>
      first
      | (cases o20 <;> cases o50 <;> cases pOpt <;>
          simp [checkForBuyCallAlert, checkForSellPutAlert])
      | (cases o10 <;> cases o50 <;> cases pOpt <;>
          simp [checkForBuyCallAlert, checkForSellPutAlert])
      | (cases o10 <;> cases o20 <;> cases pOpt <;>
          simp [checkForBuyCallAlert, checkForSellPutAlert])
  · intro h
    simp only at h
    subst h
    simp [checkForEarlyPullbackAlert]

/-- C9 witness: the suppression theorem applied to concrete snapshots
holding a zero EMA. -/
theorem zero_ema_suppresses_alerts_witness :
    checkForBuyCallAlert "A" zeroTouchCandle [] ⟨some 0, some 1, some 1⟩ none = none
    ∧ checkForSellPutAlert "A" zeroTouchCandle [] ⟨some 0, some 1, some 1⟩ none = none
    ∧ checkForEarlyPullbackAlert "A" zeroTouchCandle ⟨some 1, some 0, some 1⟩ = none :=
  ⟨((zero_ema_suppresses_alerts "A" zeroTouchCandle [] ⟨some 0, some 1, some 1⟩ none).1
      (Or.inl rfl)).1,
   ((zero_ema_suppresses_alerts "A" zeroTouchCandle [] ⟨some 0, some 1, some 1⟩ none).1
      (Or.inl rfl)).2,
   (zero_ema_suppresses_alerts "A" zeroTouchCandle [] ⟨some 1, some 0, some 1⟩ none).2 rfl⟩

/-- Characterization of `checkForBuyCallAlert`: it returns an alert
exactly when the truthiness guard passes and all seven trigger
conditions hold, and the alert it returns is a fixed record built
from the asset and the current candle's timestamp. -/
theorem buyCall_eq_some_iff (asset : String) (c : CandleData) (prev : List CandleData)
    (o10 o20 o50 : Option ℚ) (pOpt : Option IndicatorData) (a : Alert) :
    checkForBuyCallAlert asset c prev ⟨o10, o20, o50⟩ pOpt = some a ↔
      ∃ e10 e20 e50 pInd,
        o10 = some e10 ∧ o20 = some e20 ∧ o50 = some e50 ∧ pOpt = some pInd
        ∧ ¬ (e10 = 0 ∨ e20 = 0 ∨ e50 = 0 ∨ prev.length <
            STRONG_CANDLE_BODY_LOOKBACK + PULLBACK_CANDLE_LOOKBACK + VOLUME_AVERAGE_PERIOD)
        ∧ (e10 > e20 ∧ e20 > e50 ∧ c.close > e50
            ∧ hasBullishPullback c prev ⟨o10, o20, o50⟩ pInd = true
            ∧ isStrongGreenCandle c prev STRONG_CANDLE_BODY_LOOKBACK = true
            ∧ c.close > (lastD prev).high
            ∧ c.volume > getAverageVolume prev VOLUME_AVERAGE_PERIOD * 1.2)
        ∧ a = ⟨"buy-call-" ++ asset ++ "-" ++ toString c.timestamp, AlertType.BUY_CALL,
               "📈 Entrada CALL detectada – tendência confirmada", c.timestamp, asset⟩ := by
  cases o10 with
  | none => simp [checkForBuyCallAlert]
  | some x10 =>
  cases o20 with
  | none => simp [checkForBuyCallAlert]
  | some x20 =>
  cases o50 with
  | none => simp [checkForBuyCallAlert]
  | some x50 =>
  cases pOpt with
  | none => simp [checkForBuyCallAlert]
  | some pInd =>
  by_cases hg : x10 = 0 ∨ x20 = 0 ∨ x50 = 0 ∨ prev.length <
      STRONG_CANDLE_BODY_LOOKBACK + PULLBACK_CANDLE_LOOKBACK + VOLUME_AVERAGE_PERIOD
  · have hL : checkForBuyCallAlert asset c prev ⟨some x10, some x20, some x50⟩
        (some pInd) = none := by
      simp only [checkForBuyCallAlert]
      rw [if_pos hg]
    rw [hL]
    constructor
    · intro h
      exact absurd h (by simp)
    · rintro ⟨e10, e20, e50, pI, h10, h20, h50, hp, hng, -, -⟩
      rw [Option.some.injEq] at h10 h20 h50
      subst h10; subst h20; subst h50
      exact (hng hg).elim
  · by_cases hc : x10 > x20 ∧ x20 > x50 ∧ c.close > x50
        ∧ hasBullishPullback c prev ⟨some x10, some x20, some x50⟩ pInd = true
        ∧ isStrongGreenCandle c prev STRONG_CANDLE_BODY_LOOKBACK = true
        ∧ c.close > (lastD prev).high
        ∧ c.volume > getAverageVolume prev VOLUME_AVERAGE_PERIOD * 1.2
    · have hL : checkForBuyCallAlert asset c prev ⟨some x10, some x20, some x50⟩
          (some pInd) =
          some ⟨"buy-call-" ++ asset ++ "-" ++ toString c.timestamp, AlertType.BUY_CALL,
            "📈 Entrada CALL detectada – tendência confirmada", c.timestamp, asset⟩ := by
        simp only [checkForBuyCallAlert]
        rw [if_neg hg, if_pos hc]
      rw [hL]
      simp only [Option.some.injEq, Option.some.injEq]
      constructor
      · intro h
        exact ⟨x10, x20, x50, pInd, rfl, rfl, rfl, rfl, hg, hc, h.symm⟩
      · rintro ⟨e10, e20, e50, pI, h10, h20, h50, hp, -, -, ha⟩
        rw [ha]
    · have hL : checkForBuyCallAlert asset c prev ⟨some x10, some x20, some x50⟩
          (some pInd) = none := by
        simp only [checkForBuyCallAlert]
        rw [if_neg hg, if_neg hc]
      rw [hL]
      constructor
      · intro h
        exact absurd h (by simp)
      · rintro ⟨e10, e20, e50, pI, h10, h20, h50, hp, -, hcond, -⟩
        rw [Option.some.injEq] at h10 h20 h50 hp
        subst h10; subst h20; subst h50; subst hp
        exact absurd hcond hc

/-- Characterization of `checkForSellPutAlert`, mirroring
`buyCall_eq_some_iff`. -/
theorem sellPut_eq_some_iff (asset : String) (c : CandleData) (prev : List CandleData)
    (o10 o20 o50 : Option ℚ) (pOpt : Option IndicatorData) (a : Alert) :
    checkForSellPutAlert asset c prev ⟨o10, o20, o50⟩ pOpt = some a ↔
      ∃ e10 e20 e50 pInd,
        o10 = some e10 ∧ o20 = some e20 ∧ o50 = some e50 ∧ pOpt = some pInd
        ∧ ¬ (e10 = 0 ∨ e20 = 0 ∨ e50 = 0 ∨ prev.length <
            STRONG_CANDLE_BODY_LOOKBACK + PULLBACK_CANDLE_LOOKBACK + VOLUME_AVERAGE_PERIOD)
        ∧ (e10 < e20 ∧ e20 < e50 ∧ c.close < e50
            ∧ hasBearishPullback c prev ⟨o10, o20, o50⟩ pInd = true
            ∧ isStrongRedCandle c prev STRONG_CANDLE_BODY_LOOKBACK = true
            ∧ c.close < (lastD prev).low
            ∧ c.volume > getAverageVolume prev VOLUME_AVERAGE_PERIOD * 1.2)
        ∧ a = ⟨"sell-put-" ++ asset ++ "-" ++ toString c.timestamp, AlertType.SELL_PUT,
               "📉 Entrada PUT detectada – tendência confirmada", c.timestamp, asset⟩ := by
  cases o10 with
  | none => simp [checkForSellPutAlert]
  | some x10 =>
  cases o20 with
  | none => simp [checkForSellPutAlert]
  | some x20 =>
  cases o50 with
  | none => simp [checkForSellPutAlert]
  | some x50 =>
  cases pOpt with
  | none => simp [checkForSellPutAlert]
  | some pInd =>
  by_cases hg : x10 = 0 ∨ x20 = 0 ∨ x50 = 0 ∨ prev.length <
      STRONG_CANDLE_BODY_LOOKBACK + PULLBACK_CANDLE_LOOKBACK + VOLUME_AVERAGE_PERIOD
  · have hL : checkForSellPutAlert asset c prev ⟨some x10, some x20, some x50⟩
        (some pInd) = none := by
      simp only [checkForSellPutAlert]
      rw [if_pos hg]
    rw [hL]
    constructor
    · intro h
      exact absurd h (by simp)
    · rintro ⟨e10, e20, e50, pI, h10, h20, h50, hp, hng, -, -⟩
      rw [Option.some.injEq] at h10 h20 h50
      subst h10; subst h20; subst h50
      exact (hng hg).elim
  · by_cases hc : x10 < x20 ∧ x20 < x50 ∧ c.close < x50
        ∧ hasBearishPullback c prev ⟨some x10, some x20, some x50⟩ pInd = true
        ∧ isStrongRedCandle c prev STRONG_CANDLE_BODY_LOOKBACK = true
        ∧ c.close < (lastD prev).low
        ∧ c.volume > getAverageVolume prev VOLUME_AVERAGE_PERIOD * 1.2
    · have hL : checkForSellPutAlert asset c prev ⟨some x10, some x20, some x50⟩
          (some pInd) =
          some ⟨"sell-put-" ++ asset ++ "-" ++ toString c.timestamp, AlertType.SELL_PUT,
            "📉 Entrada PUT detectada – tendência confirmada", c.timestamp, asset⟩ := by
        simp only [checkForSellPutAlert]
        rw [if_neg hg, if_pos hc]
      rw [hL]
      simp only [Option.some.injEq]
      constructor
      · intro h
        exact ⟨x10, x20, x50, pInd, rfl, rfl, rfl, rfl, hg, hc, h.symm⟩
      · rintro ⟨e10, e20, e50, pI, h10, h20, h50, hp, -, -, ha⟩
        rw [ha]
    · have hL : checkForSellPutAlert asset c prev ⟨some x10, some x20, some x50⟩
          (some pInd) = none := by
        simp only [checkForSellPutAlert]
        rw [if_neg hg, if_neg hc]
      rw [hL]
      constructor
      · intro h
        exact absurd h (by simp)
      · rintro ⟨e10, e20, e50, pI, h10, h20, h50, hp, -, hcond, -⟩
        rw [Option.some.injEq] at h10 h20 h50 hp
        subst h10; subst h20; subst h50; subst hp
        exact absurd hcond hc

/-- C10: on any single candle event, BUY_CALL and SELL_PUT are
mutually exclusive — at most one of the two checkers returns an
alert, since firing requires `ema10 > ema20` for the one and
`ema10 < ema20` for the other on the same snapshot. -/
theorem buyCall_sellPut_mutually_exclusive (asset : String) (c : CandleData)
    (prev : List CandleData) (cur : IndicatorData) (pOpt : Option IndicatorData) :
    checkForBuyCallAlert asset c prev cur pOpt = none
    ∨ checkForSellPutAlert asset c prev cur pOpt = none := by
  obtain ⟨o10, o20, o50⟩ := cur
  rcases hb : checkForBuyCallAlert asset c prev ⟨o10, o20, o50⟩ pOpt with _ | a
  · exact Or.inl rfl
  · rcases hs : checkForSellPutAlert asset c prev ⟨o10, o20, o50⟩ pOpt with _ | b
    · exact Or.inr rfl
    · exfalso
      rw [buyCall_eq_some_iff] at hb
      rw [sellPut_eq_some_iff] at hs
      obtain ⟨e10, e20, e50, pI, h10, h20, h50, hp, hng, hcond, ha⟩ := hb
      obtain ⟨f10, f20, f50, qI, g10, g20, g50, gp, gng, gcond, gb⟩ := hs
      rw [h10, Option.some.injEq] at g10
      rw [h20, Option.some.injEq] at g20
      subst g10
      subst g20
      exact absurd hcond.1 (not_lt.mpr (le_of_lt gcond.1))

/-- `isStrongGreenCandle` unfolded, given enough previous candles: a
green close and a body exceeding 1.5 times the trailing average. -/
theorem isStrongGreenCandle_iff (c : CandleData) (prev : List CandleData) (lookback : ℕ)
    (h : lookback ≤ prev.length) :
    isStrongGreenCandle c prev lookback = true ↔
      c.openPrice < c.close
      ∧ getAverageBodySize prev lookback * 1.5 < getCandleBodySize c := by
  unfold isStrongGreenCandle
  rw [if_neg (by omega : ¬ prev.length < lookback)]
  by_cases h2 : c.close ≤ c.openPrice
  · rw [if_pos h2]
    simp only [Bool.false_eq_true, false_iff]
    rintro ⟨h3, -⟩
    exact absurd h3 (not_lt.mpr h2)
  · rw [if_neg h2, decide_eq_true_iff]
    push_neg at h2
    exact ⟨fun hx => ⟨h2, hx⟩, fun hx => hx.2⟩

theorem buyPrevFixture_length : buyPrevFixture.length = 15 := by
  simp [buyPrevFixture]

theorem buyPrevFixture_getLast? : buyPrevFixture.getLast? = some quietCandle := by
  rw [buyPrevFixture, List.getLast?_replicate]
  simp

theorem buyPrevFixture_lastD : lastD buyPrevFixture = quietCandle := by
  unfold lastD
  rw [List.getLastD_eq_getLast?, buyPrevFixture_getLast?]
  rfl

theorem buyPrevFixture_avgBody :
    getAverageBodySize buyPrevFixture STRONG_CANDLE_BODY_LOOKBACK = 0 := by
  unfold getAverageBodySize
  rw [if_neg (by rw [buyPrevFixture_length]; decide)]
  rw [buyPrevFixture]
  norm_num [sliceNeg, STRONG_CANDLE_BODY_LOOKBACK, List.sum_replicate, quietCandle,
    getCandleBodySize]

theorem buyPrevFixture_avgVolume :
    getAverageVolume buyPrevFixture VOLUME_AVERAGE_PERIOD = 1 := by
  unfold getAverageVolume
  rw [if_neg (by rw [buyPrevFixture_length]; decide)]
  rw [buyPrevFixture]
  norm_num [sliceNeg, VOLUME_AVERAGE_PERIOD, List.sum_replicate, quietCandle]

theorem buyFixture_pullback :
    hasBullishPullback buyCurFixture buyPrevFixture ⟨some 10, some 9, some 8⟩
      buyPrevIndFixture = true := by
  unfold hasBullishPullback
  rw [if_neg (by rw [buyPrevFixture_length]; decide)]
  rw [buyPrevFixture_getLast?]
  show decide ((((quietCandle.low ≤ 10 ∧ quietCandle.high ≥ 10) ∨ _) ∨ _) ∧ _) = true
  rw [decide_eq_true_iff]
  exact ⟨Or.inl (Or.inl ⟨by norm_num [quietCandle], by norm_num [quietCandle]⟩),
    by norm_num [quietCandle, buyCurFixture]⟩

theorem buyFixture_strongGreen :
    isStrongGreenCandle buyCurFixture buyPrevFixture STRONG_CANDLE_BODY_LOOKBACK = true := by
  rw [isStrongGreenCandle_iff _ _ _ (by rw [buyPrevFixture_length]; decide)]
  constructor
  · norm_num [buyCurFixture]
  · rw [buyPrevFixture_avgBody]
    norm_num [getCandleBodySize, buyCurFixture]

/-- C2 counterexample: the previous indicator snapshot here has
`ema50 = null`, so it is not "fully defined", yet all other trigger
conditions hold and `checkForBuyCallAlert` returns an alert — the
claim predicts null whenever the previous snapshot is not fully
defined, so the claimed biconditional fails on this input. -/
theorem buyCall_fires_without_prev_ema50_counterexample :
    buyPrevIndFixture.ema50 = none
    ∧ (checkForBuyCallAlert "BTCUSD" buyCurFixture buyPrevFixture buyIndFixture
        (some buyPrevIndFixture)).isSome = true := by
  refine ⟨rfl, ?_⟩
  rw [Option.isSome_iff_exists]
  refine ⟨⟨"buy-call-" ++ "BTCUSD" ++ "-" ++ toString buyCurFixture.timestamp,
    AlertType.BUY_CALL, "📈 Entrada CALL detectada – tendência confirmada",
    buyCurFixture.timestamp, "BTCUSD"⟩, ?_⟩
  show checkForBuyCallAlert "BTCUSD" buyCurFixture buyPrevFixture ⟨some 10, some 9, some 8⟩
      (some buyPrevIndFixture) = some _
  rw [buyCall_eq_some_iff]
  refine ⟨10, 9, 8, buyPrevIndFixture, rfl, rfl, rfl, rfl, ?_, ?_, rfl⟩
  · push_neg
    refine ⟨by norm_num, by norm_num, by norm_num, ?_⟩
    rw [buyPrevFixture_length]
    simp [STRONG_CANDLE_BODY_LOOKBACK, PULLBACK_CANDLE_LOOKBACK, VOLUME_AVERAGE_PERIOD]
  · refine ⟨by norm_num, by norm_num, by norm_num [buyCurFixture], buyFixture_pullback,
      buyFixture_strongGreen, ?_, ?_⟩
    · rw [buyPrevFixture_lastD]
      norm_num [quietCandle, buyCurFixture]
    · rw [buyPrevFixture_avgVolume]
      norm_num [buyCurFixture]

/-- C2 (amended): `checkForBuyCallAlert` returns a BUY_CALL alert
carrying the current candle's timestamp and asset if and only if: the
previous window holds at least 3+2+10 = 15 candles; the current
snapshot's three EMAs are all truthy (defined and non-zero); a
previous snapshot is present (the alert does not require it to be
fully defined — its `ema50` is never consulted, and its `ema10`/`ema20`
are checked inside `hasBullishPullback`); emaFast > emaMedium >
emaSlow; close > emaSlow; `hasBullishPullback` holds; the candle is a
strong green candle (close > open with body > 1.5× the trailing
average body); close exceeds the previous candle's high; and volume
exceeds 1.2× the trailing average volume.  Otherwise it returns
null. -/
theorem checkForBuyCallAlert_conditions (asset : String) (c : CandleData)
    (prev : List CandleData) (cur : IndicatorData) (pOpt : Option IndicatorData) :
    (∃ a, checkForBuyCallAlert asset c prev cur pOpt = some a
        ∧ a.type = AlertType.BUY_CALL ∧ a.timestamp = c.timestamp ∧ a.asset = asset)
    ↔ (STRONG_CANDLE_BODY_LOOKBACK + PULLBACK_CANDLE_LOOKBACK + VOLUME_AVERAGE_PERIOD
          ≤ prev.length
        ∧ ∃ e10 e20 e50 pInd,
            cur.ema10 = some e10 ∧ ¬ e10 = 0
            ∧ cur.ema20 = some e20 ∧ ¬ e20 = 0
            ∧ cur.ema50 = some e50 ∧ ¬ e50 = 0
            ∧ pOpt = some pInd
            ∧ e20 < e10 ∧ e50 < e20 ∧ e50 < c.close
            ∧ hasBullishPullback c prev cur pInd = true
            ∧ c.openPrice < c.close
            ∧ getAverageBodySize prev STRONG_CANDLE_BODY_LOOKBACK * 1.5 < getCandleBodySize c
            ∧ (lastD prev).high < c.close
            ∧ getAverageVolume prev VOLUME_AVERAGE_PERIOD * 1.2 < c.volume) := by
  obtain ⟨o10, o20, o50⟩ := cur
  constructor
  · rintro ⟨a, ha, -, -, -⟩
    rw [buyCall_eq_some_iff] at ha
    obtain ⟨e10, e20, e50, pInd, h10, h20, h50, hp, hg, hcond, -⟩ := ha
    push_neg at hg
    obtain ⟨hg1, hg2, hg3, hg4⟩ := hg
    obtain ⟨hc1, hc2, hc3, hc4, hc5, hc6, hc7⟩ := hcond
    have h3 : STRONG_CANDLE_BODY_LOOKBACK ≤ prev.length := by
      simp only [STRONG_CANDLE_BODY_LOOKBACK, PULLBACK_CANDLE_LOOKBACK,
        VOLUME_AVERAGE_PERIOD] at hg4 ⊢
      omega
    have hs := (isStrongGreenCandle_iff c prev STRONG_CANDLE_BODY_LOOKBACK h3).mp hc5
    exact ⟨hg4, e10, e20, e50, pInd, h10, hg1, h20, hg2, h50, hg3, hp, hc1, hc2, hc3, hc4,
      hs.1, hs.2, hc6, hc7⟩
  · rintro ⟨hlen, e10, e20, e50, pInd, h10, hg1, h20, hg2, h50, hg3, hp, hc1, hc2, hc3, hc4,
      hso, hsb, hc6, hc7⟩
    have h3 : STRONG_CANDLE_BODY_LOOKBACK ≤ prev.length := by
      simp only [STRONG_CANDLE_BODY_LOOKBACK, PULLBACK_CANDLE_LOOKBACK,
        VOLUME_AVERAGE_PERIOD] at hlen ⊢
      omega
    refine ⟨_, (buyCall_eq_some_iff asset c prev o10 o20 o50 pOpt _).mpr
      ⟨e10, e20, e50, pInd, h10, h20, h50, hp, ?_, ?_, rfl⟩, rfl, rfl, rfl⟩
    · push_neg
      exact ⟨hg1, hg2, hg3, by omega⟩
    · exact ⟨hc1, hc2, hc3, hc4,
        (isStrongGreenCandle_iff c prev STRONG_CANDLE_BODY_LOOKBACK h3).mpr ⟨hso, hsb⟩,
        hc6, hc7⟩

theorem emaScan_length (m s : ℚ) (cs : List ℚ) : (emaScan m s cs).length = cs.length := by
  induction cs generalizing s with
  | nil => rfl
  | cons c cs ih => simp [emaScan, ih]

theorem emaScan_getD_succ (m : ℚ) (cs : List ℚ) :
    ∀ (s : ℚ) (j : ℕ), j < cs.length →
      (s :: emaScan m s cs).getD (j + 1) 0 =
        (cs.getD j 0 - (s :: emaScan m s cs).getD j 0) * m
          + (s :: emaScan m s cs).getD j 0 := by
  induction cs with
  | nil =>
    intro s j h
    simp at h
  | cons c cs ih =>
    intro s j h
    cases j with
    | zero => simp [emaScan]
    | succ j =>
      have h' : j < cs.length := by
        simp only [List.length_cons] at h
        omega
      have hrec := ih ((c - s) * m + s) j h'
      simp only [emaScan, List.getD_cons_succ] at hrec ⊢
      exact hrec

theorem emaRawList_length (data : List CandleData) (P : ℕ) :
    (emaRawList data P).length = data.length - P + 1 := by
  simp [emaRawList, emaScan_length]

theorem calculateEMA_eq_of_le (data : List CandleData) (P : ℕ)
    (h : P ≤ data.length) :
    calculateEMA data P =
      List.replicate (P - 1) (none : Option ℚ) ++
        (emaRawList data P).map (fun v => some (round2 v)) := by
  rw [calculateEMA, if_neg (by omega)]
  rfl

/-- C1: for period `P ≥ 1`, `calculateEMA` returns an all-null series
when the history is shorter than `P`; otherwise indices below `P - 1`
are null, index `P - 1` is the rounding of the simple average of the
first `P` closes, the unrounded internal series satisfies the EMA
recurrence `(close i - ema (i-1)) * (2 / (P+1)) + ema (i-1)` from the
seed onward, and every exposed entry from `P - 1` on is the
two-decimal rounding of the corresponding unrounded internal value —
rounding is applied once, at the boundary, never inside the
recurrence. -/
theorem calculateEMA_matches_spec (data : List CandleData) (P : ℕ) (hP : 1 ≤ P) :
    (calculateEMA data P).length = data.length
    ∧ (data.length < P → ∀ o ∈ calculateEMA data P, o = none)
    ∧ (P ≤ data.length →
        (∀ i, i < P - 1 → (calculateEMA data P)[i]? = some none)
        ∧ (calculateEMA data P)[P - 1]? =
            some (some (round2 (((data.map CandleData.close).take P).sum / (P : ℚ))))
        ∧ emaRawAt data P (P - 1) = ((data.map CandleData.close).take P).sum / (P : ℚ)
        ∧ (∀ i, P ≤ i → i < data.length →
            emaRawAt data P i =
              ((data.map CandleData.close).getD i 0 - emaRawAt data P (i - 1))
                * (2 / ((P : ℚ) + 1)) + emaRawAt data P (i - 1))
        ∧ (∀ i, P - 1 ≤ i → i < data.length →
            (calculateEMA data P)[i]? = some (some (round2 (emaRawAt data P i))))) := by
  refine ⟨?_, ?_, ?_⟩
  · by_cases hlt : data.length < P
    · rw [calculateEMA, if_pos hlt]
      simp
    · rw [calculateEMA_eq_of_le data P (by omega)]
      simp only [List.length_append, List.length_replicate, List.length_map,
        emaRawList_length]
      omega
  · intro h o ho
    rw [calculateEMA, if_pos h] at ho
    obtain ⟨x, -, hx⟩ := List.mem_map.mp ho
    exact hx.symm
  · intro hle
    refine ⟨?_, ?_, ?_, ?_, ?_⟩
    · intro i hi
      rw [calculateEMA_eq_of_le data P hle,
        List.getElem?_append_left (by simpa using hi),
        List.getElem?_replicate_of_lt hi]
    · rw [calculateEMA_eq_of_le data P hle,
        List.getElem?_append_right (by simp)]
      simp [emaRawList]
    · unfold emaRawAt
      rw [Nat.sub_self]
      simp [emaRawList]
    · intro i h1 h2
      unfold emaRawAt
      have hj : i - (P - 1) = (i - P) + 1 := by omega
      have hj' : (i - 1) - (P - 1) = i - P := by omega
      rw [hj, hj']
      rw [show emaRawList data P =
          (((data.map CandleData.close).take P).sum / (P : ℚ)) ::
            emaScan (2 / ((P : ℚ) + 1)) (((data.map CandleData.close).take P).sum / (P : ℚ))
              ((data.map CandleData.close).drop P) from rfl]
      rw [emaScan_getD_succ _ _ _ _ (by simp only [List.length_drop, List.length_map]; omega)]
      have hcs : ((data.map CandleData.close).drop P).getD (i - P) 0 =
          (data.map CandleData.close).getD i 0 := by
        rw [List.getD_eq_getElem?_getD, List.getElem?_drop, ← List.getD_eq_getElem?_getD]
        congr 1
        omega
      rw [hcs]
    · intro i h1 h2
      rw [calculateEMA_eq_of_le data P hle,
        List.getElem?_append_right (by simpa using h1)]
      have hj : i - (P - 1) < (emaRawList data P).length := by
        rw [emaRawList_length]
        omega
      rw [List.getElem?_map, List.length_replicate, List.getElem?_eq_getElem hj]
      simp only [Option.map_some']
      unfold emaRawAt
      rw [List.getD_eq_getElem?_getD, List.getElem?_eq_getElem hj]
      rfl

/-- C1 witness: the EMA theorem applied to three candles with closes
1, 3 and 5 and period 2 — the seed sits at index 1 and index 2 obeys
the recurrence on the unrounded values. -/
theorem calculateEMA_matches_spec_witness :
    (calculateEMA emaFixture 2).length = emaFixture.length
    ∧ (calculateEMA emaFixture 2)[0]? = some none
    ∧ (calculateEMA emaFixture 2)[1]? =
        some (some (round2 (((emaFixture.map CandleData.close).take 2).sum / (2 : ℚ))))
    ∧ emaRawAt emaFixture 2 2 =
        ((emaFixture.map CandleData.close).getD 2 0 - emaRawAt emaFixture 2 1)
          * (2 / ((2 : ℚ) + 1)) + emaRawAt emaFixture 2 1
    ∧ (calculateEMA emaFixture 2)[2]? = some (some (round2 (emaRawAt emaFixture 2 2))) :=
  ⟨(calculateEMA_matches_spec emaFixture 2 (by decide)).1,
   ((calculateEMA_matches_spec emaFixture 2 (by decide)).2.2 (by decide)).1 0 (by decide),
   ((calculateEMA_matches_spec emaFixture 2 (by decide)).2.2 (by decide)).2.1,
   ((calculateEMA_matches_spec emaFixture 2 (by decide)).2.2 (by decide)).2.2.2.1 2
     (by decide) (by decide),
   ((calculateEMA_matches_spec emaFixture 2 (by decide)).2.2 (by decide)).2.2.2.2 2
     (by decide) (by decide)⟩

/-- C2 witness: the amended biconditional applied (right to left) to
the concrete fixture, producing the alert. -/
theorem checkForBuyCallAlert_conditions_witness :
    ∃ a, checkForBuyCallAlert "BTCUSD" buyCurFixture buyPrevFixture buyIndFixture
        (some buyPrevIndFixture) = some a
      ∧ a.type = AlertType.BUY_CALL ∧ a.timestamp = buyCurFixture.timestamp
      ∧ a.asset = "BTCUSD" :=
  (checkForBuyCallAlert_conditions "BTCUSD" buyCurFixture buyPrevFixture buyIndFixture
    (some buyPrevIndFixture)).mpr
    ⟨by rw [buyPrevFixture_length]; decide,
     10, 9, 8, buyPrevIndFixture, rfl, by norm_num, rfl, by norm_num, rfl, by norm_num, rfl,
     by norm_num, by norm_num, by norm_num [buyCurFixture], buyFixture_pullback,
     by norm_num [buyCurFixture],
     by rw [buyPrevFixture_avgBody]; norm_num [getCandleBodySize, buyCurFixture],
     by rw [buyPrevFixture_lastD]; norm_num [quietCandle, buyCurFixture],
     by rw [buyPrevFixture_avgVolume]; norm_num [buyCurFixture]⟩

/-- C8 witness: the amended biconditional applied (right to left) to a
candle straddling a non-zero `ema20`, plus the disabled-gate case. -/
theorem earlyPullback_touch_iff_witness :
    (∃ a, earlyPullbackGated true "X" ⟨0, 2, 3, 1, 2, 1⟩ ⟨none, some 2, none⟩ = some a
        ∧ a.type = AlertType.EARLY_PULLBACK_EMA20
        ∧ a.timestamp = (⟨0, 2, 3, 1, 2, 1⟩ : CandleData).timestamp
        ∧ a.asset = "X")
    ∧ earlyPullbackGated false "X" ⟨0, 2, 3, 1, 2, 1⟩ ⟨none, some 2, none⟩ = none :=
  ⟨(earlyPullback_touch_iff "X" ⟨0, 2, 3, 1, 2, 1⟩ ⟨none, some 2, none⟩).1.mpr
     ⟨2, rfl, by norm_num, by norm_num, by norm_num⟩,
   (earlyPullback_touch_iff "X" ⟨0, 2, 3, 1, 2, 1⟩ ⟨none, some 2, none⟩).2.2⟩

end TradingMonitor
